import Mathlib

/-
  Verification of the screen-pipe recording server against its specification.

  Shallow embedding of src/screenpipe-server/src/server.rs and
  src/screenpipe-server/src/core.rs.  Timestamps (chrono DateTime<Utc>) are
  modelled as integer seconds.  External collaborators (the screenpipe-audio
  crate, the OCR engines, the SQLite-backed DatabaseManager which is not under
  src/) are modelled as parameters or, where the claims need their behaviour,
  from the specification (such definitions are marked "Modelled from the spec").
-/

namespace Screenpipe

/-- DeviceControl (from screenpipe-audio, used throughout server.rs/core.rs):
configuration for a named audio device. -/
structure DeviceControl where
  is_running : Bool
  is_paused : Bool
deriving DecidableEq

/-- DeviceStatus response struct from server.rs. -/
structure DeviceStatus where
  id : String
  is_running : Bool
deriving DecidableEq

/-- RecordingStatus response struct from server.rs. -/
structure RecordingStatus where
  is_running : Bool
deriving DecidableEq

/-- Result of an axum handler: either a JSON value or an HTTP status code with
an error body, mirroring `Result<JsonResponse<T>, (StatusCode, JsonResponse<Value>)>`. -/
inductive HandlerResult (α : Type) where
  | ok (val : α)
  | err (code : Nat) (msg : String)
deriving DecidableEq

/-- AppState from server.rs: the database handle is kept abstract; the
devices_status HashMap, the audio_devices_control SegQueue (pushes append at
the back) and the vision_control AtomicBool are modelled explicitly.
AudioDevice is modelled by its name string (AudioDevice.to_string). -/
structure AppState where
  devices_status : List (String × DeviceControl)
  queue : List (String × DeviceControl)
  vision_control : Bool
deriving DecidableEq

/-- Association-list lookup mirroring HashMap::get. -/
def alookup {β : Type} : List (String × β) → String → Option β
  | [], _ => none
  | (k0, v) :: rest, k => if k0 = k then some v else alookup rest k

/-- start_device from server.rs: parse the device id with
AudioDevice::from_name (external, passed as a parameter); on failure return
400 and change nothing; on success push a start command onto the control
queue and answer `{id, is_running: true}`. -/
def start_device (from_name : String → Option String) (st : AppState)
    (device_id : String) : HandlerResult DeviceStatus × AppState :=
  match from_name device_id with
  | none => (HandlerResult.err 400 "Invalid device ID", st)
  | some dev =>
      (HandlerResult.ok { id := device_id, is_running := true },
       { st with queue := st.queue ++ [(dev, { is_running := true, is_paused := false })] })

/-- stop_device from server.rs: like start_device but pushes a stop command
and answers `{id, is_running: false}`. -/
def stop_device (from_name : String → Option String) (st : AppState)
    (device_id : String) : HandlerResult DeviceStatus × AppState :=
  match from_name device_id with
  | none => (HandlerResult.err 400 "Invalid device ID", st)
  | some dev =>
      (HandlerResult.ok { id := device_id, is_running := false },
       { st with queue := st.queue ++ [(dev, { is_running := false, is_paused := false })] })

/-- get_device_status from server.rs: 400 on a malformed id, otherwise look the
device up in the devices_status table; 404 when absent. -/
def get_device_status (from_name : String → Option String) (st : AppState)
    (device_id : String) : HandlerResult DeviceStatus :=
  match from_name device_id with
  | none => HandlerResult.err 400 "Invalid device ID"
  | some dev =>
      match alookup st.devices_status dev with
      | some dc => HandlerResult.ok { id := device_id, is_running := dc.is_running }
      | none => HandlerResult.err 404 "Device not found"

/-- get_devices from server.rs: map the devices_status table to DeviceStatus
entries. -/
def get_devices (st : AppState) : List DeviceStatus :=
  st.devices_status.map (fun p => { id := p.1, is_running := p.2.is_running })

/-- start_recording from server.rs: store true into the vision_control atomic
and answer `{is_running: true}`. -/
def start_recording (st : AppState) : RecordingStatus × AppState :=
  ({ is_running := true }, { st with vision_control := true })

/-- stop_recording from server.rs: store false into the vision_control atomic
and answer `{is_running: false}`. -/
def stop_recording (st : AppState) : RecordingStatus × AppState :=
  ({ is_running := false }, { st with vision_control := false })

/-- get_recording_status from server.rs: load the vision_control atomic. -/
def get_recording_status (st : AppState) : RecordingStatus :=
  { is_running := st.vision_control }

/-- HealthCheckResponse from server.rs. -/
structure HealthCheckResponse where
  status : String
  last_frame_timestamp : Option Int
  last_audio_timestamp : Option Int
  frame_status : String
  audio_status : String
  message : String
  verbose_instructions : Option String
deriving DecidableEq

/-- Processing of `state.db.get_latest_timestamps().await` at the top of
health_check in server.rs: an Ok pair is used as is, an Err is logged and
replaced by `(None, None)`. -/
def latest_timestamps (dbResult : Except String (Option Int × Option Int)) :
    Option Int × Option Int :=
  match dbResult with
  | Except.ok p => p
  | Except.error _ => (none, none)

/-- Per-stream classification in health_check (server.rs): "OK" when the
elapsed time since the last timestamp is under the 60 s threshold, "Stale"
otherwise, "No data" when there is no timestamp.  The same match is applied
to the frame stream and the audio stream. -/
def streamStatus (now : Int) (last : Option Int) : String :=
  match last with
  | some ts => if now - ts < 60 then "OK" else "Stale"
  | none => "No data"

/-- health_check from server.rs, as a function of the database answer, the
current time and the server start time (state.app_start_time). -/
def health_check (dbResult : Except String (Option Int × Option Int))
    (now app_start_time : Int) : HealthCheckResponse :=
  let last_frame := (latest_timestamps dbResult).1
  let last_audio := (latest_timestamps dbResult).2
  let time_since_start := now - app_start_time
  if time_since_start < 120 then
    { status := "Loading",
      last_frame_timestamp := last_frame,
      last_audio_timestamp := last_audio,
      frame_status := "Loading",
      audio_status := "Loading",
      message := "The application is still initializing. Please wait...",
      verbose_instructions := none }
  else
    let frame_status := streamStatus now last_frame
    let audio_status := streamStatus now last_audio
    if frame_status = "OK" ∧ audio_status = "OK" then
      { status := "Healthy",
        last_frame_timestamp := last_frame,
        last_audio_timestamp := last_audio,
        frame_status := frame_status,
        audio_status := audio_status,
        message := "All systems are functioning normally.",
        verbose_instructions := none }
    else
      { status := "Unhealthy",
        last_frame_timestamp := last_frame,
        last_audio_timestamp := last_audio,
        frame_status := frame_status,
        audio_status := audio_status,
        message := "Some systems are not functioning properly. Frame status: "
          ++ frame_status ++ ", Audio status: " ++ audio_status,
        verbose_instructions := some "If you are experiencing issues, please try restarting the application, resetting audio and screen recording permissions, or contacting support." }

/-- Association-list insertion mirroring HashMap::insert (replaces an existing
binding for the key, keeping at most one entry per key). -/
def ainsert (m : List (String × Nat)) (k : String) (v : Nat) : List (String × Nat) :=
  match m with
  | [] => [(k, v)]
  | (k0, v0) :: rest => if k0 = k then (k, v) :: rest else (k0, v0) :: ainsert rest k v

/-- Association-list removal mirroring HashMap::remove. -/
def aremove (m : List (String × Nat)) (k : String) : List (String × Nat) :=
  match m with
  | [] => []
  | (k0, v0) :: rest => if k0 = k then rest else (k0, v0) :: aremove rest k

/-- State of the record_audio supervisor loop (core.rs): `handles` is the
HashMap from device id to the JoinHandle of the most recently spawned worker,
`live` is the set of spawned worker tasks that have not been aborted (worker
id paired with its device), and `next_worker` numbers spawns.  Dropping a
JoinHandle does not abort the task, so replacing a handles entry leaves the
old worker in `live`. -/
structure SupervisorState where
  handles : List (String × Nat)
  live : List (Nat × String)
  next_worker : Nat
deriving DecidableEq

/-- Processing of one `(audio_device, device_control)` command popped from
audio_devices_control in record_audio (core.rs): a stop command aborts and
removes the tracked handle when one exists (otherwise does nothing); a start
command unconditionally spawns a fresh worker task and inserts its handle,
replacing — without aborting — any handle already recorded for that device. -/
def record_audio_step (cmd : String × DeviceControl) (s : SupervisorState) :
    SupervisorState :=
  if cmd.2.is_running = false then
    match alookup s.handles cmd.1 with
    | some h =>
        { handles := aremove s.handles cmd.1,
          live := s.live.filter (fun w => w.1 != h),
          next_worker := s.next_worker }
    | none => s
  else
    { handles := ainsert s.handles cmd.1 s.next_worker,
      live := s.live ++ [(s.next_worker, cmd.1)],
      next_worker := s.next_worker + 1 }

/-- C3: evaluation of record_audio_step on the failing input.  Starting "mic"
twice from the empty supervisor state leaves TWO live worker tasks for "mic",
not one: the second start is not detected, a second worker is spawned, and
the table entry is overwritten.  A subsequent stop aborts only the newer
worker, so one recorder survives its own stop command. -/
theorem record_audio_double_start_spawns_second_worker :
    ((record_audio_step ("mic", { is_running := true, is_paused := false })
        (record_audio_step ("mic", { is_running := true, is_paused := false })
          { handles := [], live := [], next_worker := 0 })).live.filter
            (fun w => w.2 == "mic")).length = 2 ∧
    ((record_audio_step ("mic", { is_running := false, is_paused := false })
        (record_audio_step ("mic", { is_running := true, is_paused := false })
          (record_audio_step ("mic", { is_running := true, is_paused := false })
            { handles := [], live := [], next_worker := 0 }))).live.filter
              (fun w => w.2 == "mic")).length = 1 := by
  decide

/-- C4: evaluation at the failing input.  With no devices in the startup
devices_status table, POST /audio/start for "mic" succeeds (it only pushes a
command onto the control queue), yet GET /audio/list still answers the empty
list: the handlers never modify devices_status, so is_running:true never
becomes visible there. -/
theorem audio_list_ignores_start_command :
    (start_device (fun s => some s)
        { devices_status := [], queue := [], vision_control := false } "mic").1
      = HandlerResult.ok { id := "mic", is_running := true } ∧
    get_devices (start_device (fun s => some s)
        { devices_status := [], queue := [], vision_control := false } "mic").2
      = [] ∧
    (start_device (fun s => some s)
        { devices_status := [], queue := [], vision_control := false } "mic").2.devices_status
      = [] := by
  decide

/-- C7 counterexample: a device present in the startup devices_status table
(marked not running) but with no worker in the supervisor table.  The claim
demands a 404 from /audio/status, but the handler answers 200 with
`{id, is_running:false}`: the 404 depends on devices_status, not on the
supervisor's worker table. -/
theorem device_status_not_404_without_worker :
    get_device_status (fun s => some s)
        { devices_status := [("mic", { is_running := false, is_paused := false })],
          queue := [], vision_control := false } "mic"
      = HandlerResult.ok { id := "mic", is_running := false } ∧
    get_device_status (fun s => some s)
        { devices_status := [("mic", { is_running := false, is_paused := false })],
          queue := [], vision_control := false } "mic"
      ≠ HandlerResult.err 404 "Device not found" := by
  decide

/-- C7 amended: for a well-formed device id, POST /audio/stop answers success
`{id, is_running:false}` and pushes a stop command; the supervisor, handling a
stop for a device with no worker in its table, leaves its state unchanged;
and POST /audio/status answers 404 exactly when the device is absent from the
devices_status table captured at server startup — independently of the
supervisor's worker table. -/
theorem stop_nonexistent_device_noop
    (from_name : String → Option String) (st : AppState) (sup : SupervisorState)
    (d dev : String) (h : from_name d = some dev) :
    (stop_device from_name st d).1
      = HandlerResult.ok { id := d, is_running := false } ∧
    (stop_device from_name st d).2
      = { st with queue := st.queue ++ [(dev, { is_running := false, is_paused := false })] } ∧
    (alookup sup.handles dev = none →
      record_audio_step (dev, { is_running := false, is_paused := false }) sup = sup) ∧
    (get_device_status from_name st d = HandlerResult.err 404 "Device not found" ↔
      alookup st.devices_status dev = none) := by
  refine ⟨?_, ?_, ?_, ?_⟩
  · simp [stop_device, h]
  · simp [stop_device, h]
  · intro hnone
    simp [record_audio_step, hnone]
  · simp only [get_device_status, h]
    cases hws : alookup st.devices_status dev with
    | none => simp
    | some dc => simp

/-- C7 witness: concrete state with one startup device "spk" and an empty
worker table; stopping the unknown device "mic" succeeds, the supervisor is
unchanged, and /audio/status for "mic" is 404 because "mic" is not in the
startup table. -/
theorem stop_nonexistent_device_noop_witness :
    (stop_device (fun s => some s)
        { devices_status := [("spk", { is_running := true, is_paused := false })],
          queue := [], vision_control := false } "mic").1
      = HandlerResult.ok { id := "mic", is_running := false } ∧
    (stop_device (fun s => some s)
        { devices_status := [("spk", { is_running := true, is_paused := false })],
          queue := [], vision_control := false } "mic").2
      = { devices_status := [("spk", { is_running := true, is_paused := false })],
          queue := [("mic", { is_running := false, is_paused := false })],
          vision_control := false } ∧
    (alookup (SupervisorState.handles { handles := [], live := [], next_worker := 0 }) "mic" = none →
      record_audio_step ("mic", { is_running := false, is_paused := false })
          { handles := [], live := [], next_worker := 0 }
        = { handles := [], live := [], next_worker := 0 }) ∧
    (get_device_status (fun s => some s)
        { devices_status := [("spk", { is_running := true, is_paused := false })],
          queue := [], vision_control := false } "mic"
      = HandlerResult.err 404 "Device not found" ↔
      alookup [("spk", ({ is_running := true, is_paused := false } : DeviceControl))] "mic" = none) :=
  stop_nonexistent_device_noop (fun s => some s)
    { devices_status := [("spk", { is_running := true, is_paused := false })],
      queue := [], vision_control := false }
    { handles := [], live := [], next_worker := 0 } "mic" "mic" rfl

/-- C8: a control-surface request whose device id is rejected by
AudioDevice::from_name gets a 400 response, and the state — in particular the
device-control queue — is left exactly as it was: no command is pushed. -/
theorem malformed_device_id_400_no_state_change
    (from_name : String → Option String) (st : AppState) (d : String)
    (h : from_name d = none) :
    start_device from_name st d = (HandlerResult.err 400 "Invalid device ID", st) ∧
    stop_device from_name st d = (HandlerResult.err 400 "Invalid device ID", st) := by
  constructor <;> simp [start_device, stop_device, h]

/-- C8 witness: a concrete parser that rejects everything, a concrete state. -/
theorem malformed_device_id_400_no_state_change_witness :
    start_device (fun _ => none)
        { devices_status := [], queue := [], vision_control := false } "###"
      = (HandlerResult.err 400 "Invalid device ID",
         { devices_status := [], queue := [], vision_control := false }) ∧
    stop_device (fun _ => none)
        { devices_status := [], queue := [], vision_control := false } "###"
      = (HandlerResult.err 400 "Invalid device ID",
         { devices_status := [], queue := [], vision_control := false }) :=
  malformed_device_id_400_no_state_change (fun _ => none)
    { devices_status := [], queue := [], vision_control := false } "###" rfl

/-- C9: /vision/start and /vision/stop are idempotent — running either handler
twice yields the same response and the same state as running it once — and
/vision/status returns exactly the current value of the recording flag. -/
theorem recording_transitions_idempotent (st : AppState) :
    start_recording (start_recording st).2 = start_recording st ∧
    stop_recording (stop_recording st).2 = stop_recording st ∧
    get_recording_status st = { is_running := st.vision_control } ∧
    (get_recording_status (start_recording st).2).is_running = true ∧
    (get_recording_status (stop_recording st).2).is_running = false := by
  cases st
  exact ⟨rfl, rfl, rfl, rfl, rfl⟩

/-- C2: during the first 120 s after server start the overall status and both
per-stream statuses are "Loading"; afterwards a stream is "OK" when less than
60 s have elapsed since its last timestamp, "Stale" when 60 s or more have,
and "No data" when it has no timestamp; the overall status is "Healthy" iff
both stream statuses are "OK", and otherwise it is "Unhealthy" and carries
remediation instructions. -/
theorem health_check_classification
    (dbr : Except String (Option Int × Option Int)) (now start : Int) :
    (now - start < 120 →
      (health_check dbr now start).status = "Loading" ∧
      (health_check dbr now start).frame_status = "Loading" ∧
      (health_check dbr now start).audio_status = "Loading") ∧
    (120 ≤ now - start →
      (∀ ts, (latest_timestamps dbr).1 = some ts →
        (now - ts < 60 → (health_check dbr now start).frame_status = "OK") ∧
        (60 ≤ now - ts → (health_check dbr now start).frame_status = "Stale")) ∧
      ((latest_timestamps dbr).1 = none →
        (health_check dbr now start).frame_status = "No data") ∧
      (∀ ts, (latest_timestamps dbr).2 = some ts →
        (now - ts < 60 → (health_check dbr now start).audio_status = "OK") ∧
        (60 ≤ now - ts → (health_check dbr now start).audio_status = "Stale")) ∧
      ((latest_timestamps dbr).2 = none →
        (health_check dbr now start).audio_status = "No data") ∧
      ((health_check dbr now start).status = "Healthy" ↔
        (health_check dbr now start).frame_status = "OK" ∧
        (health_check dbr now start).audio_status = "OK") ∧
      ((health_check dbr now start).status ≠ "Healthy" →
        (health_check dbr now start).status = "Unhealthy" ∧
        (health_check dbr now start).verbose_instructions.isSome = true)) := by
  constructor
  · intro h
    simp only [health_check, if_pos h]
    exact ⟨trivial, trivial, trivial⟩
  · intro h
    have hn : ¬ now - start < 120 := not_lt.mpr h
    simp only [health_check, if_neg hn]
    by_cases hok :
        streamStatus now (latest_timestamps dbr).1 = "OK" ∧
        streamStatus now (latest_timestamps dbr).2 = "OK"
    · simp only [if_pos hok]
      refine ⟨?_, ?_, ?_, ?_, ?_, ?_⟩
      · intro ts hts
        constructor
        · intro hlt
          simp [streamStatus, hts, if_pos hlt]
        · intro hge
          simp [streamStatus, hts, if_neg (not_lt.mpr hge)]
      · intro hts
        simp [streamStatus, hts]
      · intro ts hts
        constructor
        · intro hlt
          simp [streamStatus, hts, if_pos hlt]
        · intro hge
          simp [streamStatus, hts, if_neg (not_lt.mpr hge)]
      · intro hts
        simp [streamStatus, hts]
      · simpa using hok
      · intro hne
        exact absurd rfl hne
    · simp only [if_neg hok]
      refine ⟨?_, ?_, ?_, ?_, ?_, ?_⟩
      · intro ts hts
        constructor
        · intro hlt
          simp [streamStatus, hts, if_pos hlt]
        · intro hge
          simp [streamStatus, hts, if_neg (not_lt.mpr hge)]
      · intro hts
        simp [streamStatus, hts]
      · intro ts hts
        constructor
        · intro hlt
          simp [streamStatus, hts, if_pos hlt]
        · intro hge
          simp [streamStatus, hts, if_neg (not_lt.mpr hge)]
      · intro hts
        simp [streamStatus, hts]
      · constructor
        · intro habs
          exact absurd habs (by decide)
        · intro hboth
          exact absurd hboth hok
      · intro _
        exact ⟨trivial, rfl⟩

/-- C2 witness: at 100 s after start the answer is Loading; at 200 s after
start with a frame seen 50 s ago and no audio ever, the frame stream is OK,
the audio stream is No data, and the overall status is Unhealthy. -/
theorem health_check_classification_witness :
    (health_check (Except.ok (some 90, some 90)) 100 0).status = "Loading" ∧
    (health_check (Except.ok (some 150, none)) 200 0).frame_status = "OK" ∧
    (health_check (Except.ok (some 150, none)) 200 0).audio_status = "No data" ∧
    (health_check (Except.ok (some 150, none)) 200 0).status = "Unhealthy" := by
  have h1 :=
    (health_check_classification (Except.ok (some 90, some 90)) 100 0).1 (by decide)
  have h2 :=
    (health_check_classification (Except.ok (some 150, none)) 200 0).2 (by decide)
  have hfr : (health_check (Except.ok (some 150, none)) 200 0).frame_status = "OK" :=
    (h2.1 150 rfl).1 (by decide)
  have hau : (health_check (Except.ok (some 150, none)) 200 0).audio_status = "No data" :=
    h2.2.2.2.1 rfl
  have hne : (health_check (Except.ok (some 150, none)) 200 0).status ≠ "Healthy" := by
    intro habs
    have := (h2.2.2.2.2.1.mp habs).2
    rw [hau] at this
    exact absurd this (by decide)
  exact ⟨h1.1, hfr, hau, (h2.2.2.2.2.2 hne).1⟩

/-- C10: when get_latest_timestamps fails, health_check still answers normally
(no HTTP error), exactly as if both timestamps were absent; past the 120 s
loading window both streams read "No data" and the overall status is
"Unhealthy". -/
theorem health_check_db_error (e : String) (now start : Int) :
    health_check (Except.error e) now start
      = health_check (Except.ok (none, none)) now start ∧
    (120 ≤ now - start →
      (health_check (Except.error e) now start).frame_status = "No data" ∧
      (health_check (Except.error e) now start).audio_status = "No data" ∧
      (health_check (Except.error e) now start).status = "Unhealthy") := by
  constructor
  · rfl
  · intro h
    have hn : ¬ now - start < 120 := not_lt.mpr h
    simp [health_check, latest_timestamps, streamStatus, if_neg hn]

/-- C10 witness: a concrete database failure, 200 s after start. -/
theorem health_check_db_error_witness :
    health_check (Except.error "boom") 200 0
      = health_check (Except.ok (none, none)) 200 0 ∧
    (health_check (Except.error "boom") 200 0).frame_status = "No data" ∧
    (health_check (Except.error "boom") 200 0).audio_status = "No data" ∧
    (health_check (Except.error "boom") 200 0).status = "Unhealthy" := by
  have h := health_check_db_error "boom" 200 0
  exact ⟨h.1, h.2 (by decide)⟩

/-- OcrFrame popped from video_capture.ocr_frame_queue in record_video
(core.rs); the structured fields are kept in their serialized string form. -/
structure OcrFrame where
  text : String
  text_json : String
  new_text_json : String
  raw_output : String
  app_name : String
deriving DecidableEq

/-- State threaded through iterations of the record_video while-loop
(core.rs): the OCR queue, the frame and OCR rows accumulated in the Store,
the next frame id the Store will hand out, the tick counter, and whether the
current iteration performed the 100 ms error backoff sleep. -/
structure VideoState where
  queue : List OcrFrame
  frames : List (Nat × String)
  ocr_rows : List (Nat × String)
  next_frame_id : Nat
  tick : Nat
  slept_error : Bool
deriving DecidableEq

/-- One iteration of the record_video while-loop (core.rs), parameterised by
the Store's success behaviour for insert_frame and insert_ocr_text at each
tick.  The code pops at most one frame per tick; insert_frame runs first; on
an insert_frame error it logs, sleeps 100 ms and continues — the popped frame
is not requeued; on an insert_ocr_text error it logs and skips, leaving the
already-inserted frame row without an OCR row. -/
def record_video_tick (frame_ok : Nat → OcrFrame → Bool)
    (ocr_ok : Nat → OcrFrame → Bool) (s : VideoState) : VideoState :=
  match s.queue with
  | [] =>
      { s with tick := s.tick + 1, slept_error := false }
  | f :: rest =>
      if frame_ok s.tick f then
        if ocr_ok s.tick f then
          { queue := rest,
            frames := s.frames ++ [(s.next_frame_id, f.app_name)],
            ocr_rows := s.ocr_rows ++ [(s.next_frame_id, f.text)],
            next_frame_id := s.next_frame_id + 1,
            tick := s.tick + 1,
            slept_error := false }
        else
          { queue := rest,
            frames := s.frames ++ [(s.next_frame_id, f.app_name)],
            ocr_rows := s.ocr_rows,
            next_frame_id := s.next_frame_id + 1,
            tick := s.tick + 1,
            slept_error := false }
      else
        { queue := rest,
          frames := s.frames,
          ocr_rows := s.ocr_rows,
          next_frame_id := s.next_frame_id,
          tick := s.tick + 1,
          slept_error := true }

/-- Sample OCR frames used to evaluate the record_video loop at concrete
inputs. -/
def sampleFrame1 : OcrFrame :=
  { text := "t1", text_json := "", new_text_json := "", raw_output := "",
    app_name := "a1" }

/-- Second sample OCR frame. -/
def sampleFrame2 : OcrFrame :=
  { text := "t2", text_json := "", new_text_json := "", raw_output := "",
    app_name := "a2" }

/-- Initial video-loop state holding the two sample frames. -/
def sampleVideoState : VideoState :=
  { queue := [sampleFrame1, sampleFrame2], frames := [], ocr_rows := [],
    next_frame_id := 0, tick := 0, slept_error := false }

/-- C5 counterexample: a Store whose insert_frame fails only at tick 0.  The
first queued frame is popped at tick 0, insert_frame fails, the 100 ms sleep
happens — and that frame is gone: tick 1 moves on to the second frame, no
insert is retried for the first one, and its app_name "a1" never reaches the
Store even though the Store would now accept it. -/
theorem record_video_failed_frame_not_retried :
    (record_video_tick (fun n _ => n != 0) (fun _ _ => true)
        sampleVideoState).slept_error = true ∧
    (record_video_tick (fun n _ => n != 0) (fun _ _ => true)
        sampleVideoState).queue = [sampleFrame2] ∧
    (record_video_tick (fun n _ => n != 0) (fun _ _ => true)
        (record_video_tick (fun n _ => n != 0) (fun _ _ => true)
          sampleVideoState)).frames = [(0, "a2")] ∧
    (record_video_tick (fun n _ => n != 0) (fun _ _ => true)
        (record_video_tick (fun n _ => n != 0) (fun _ _ => true)
          sampleVideoState)).queue = [] := by
  decide

/-- C5 amended: for each OcrFrame the loop dequeues, insert_frame(app_name)
runs before insert_ocr_text (so an OCR row is only ever added for a frame row
inserted in the same tick); when insert_frame fails the loop sleeps 100 ms and
drops that frame — it is not retried, the next tick moves on to the next
queued frame; when insert_ocr_text fails the frame is skipped, leaving the
already-inserted frame row with no OCR row.  The invariant that every OCR row
references an inserted frame row is preserved by every tick. -/
theorem record_video_tick_spec (frame_ok ocr_ok : Nat → OcrFrame → Bool)
    (s : VideoState) (f : OcrFrame) (rest : List OcrFrame)
    (hq : s.queue = f :: rest) :
    (frame_ok s.tick f = false →
      (record_video_tick frame_ok ocr_ok s).queue = rest ∧
      (record_video_tick frame_ok ocr_ok s).frames = s.frames ∧
      (record_video_tick frame_ok ocr_ok s).ocr_rows = s.ocr_rows ∧
      (record_video_tick frame_ok ocr_ok s).slept_error = true) ∧
    (frame_ok s.tick f = true →
      (record_video_tick frame_ok ocr_ok s).frames
        = s.frames ++ [(s.next_frame_id, f.app_name)] ∧
      (ocr_ok s.tick f = true →
        (record_video_tick frame_ok ocr_ok s).ocr_rows
          = s.ocr_rows ++ [(s.next_frame_id, f.text)]) ∧
      (ocr_ok s.tick f = false →
        (record_video_tick frame_ok ocr_ok s).ocr_rows = s.ocr_rows)) ∧
    ((∀ p ∈ s.ocr_rows, ∃ q ∈ s.frames, q.1 = p.1) →
      ∀ p ∈ (record_video_tick frame_ok ocr_ok s).ocr_rows,
        ∃ q ∈ (record_video_tick frame_ok ocr_ok s).frames, q.1 = p.1) := by
  refine ⟨?_, ?_, ?_⟩
  · intro hf
    simp [record_video_tick, hq, hf]
  · intro hf
    refine ⟨?_, ?_, ?_⟩
    · cases ho : ocr_ok s.tick f <;> simp [record_video_tick, hq, hf, ho]
    · intro ho
      simp [record_video_tick, hq, hf, ho]
    · intro ho
      simp [record_video_tick, hq, hf, ho]
  · intro hinv p hp
    by_cases hf : frame_ok s.tick f = true
    · by_cases ho : ocr_ok s.tick f = true
      · simp only [record_video_tick, hq, hf, ho, if_true] at hp ⊢
        simp only [List.mem_append, List.mem_singleton] at hp
        rcases hp with hp | hp
        · obtain ⟨q, hqmem, hqeq⟩ := hinv p hp
          exact ⟨q, List.mem_append_left _ hqmem, hqeq⟩
        · exact ⟨(s.next_frame_id, f.app_name),
            List.mem_append_right _ (List.mem_singleton.mpr rfl), by rw [hp]⟩
      · simp only [record_video_tick, hq, hf, if_true] at hp ⊢
        rw [if_neg ho] at hp ⊢
        obtain ⟨q, hqmem, hqeq⟩ := hinv p hp
        exact ⟨q, List.mem_append_left _ hqmem, hqeq⟩
    · simp only [record_video_tick, hq, if_neg hf] at hp ⊢
      exact hinv p hp

/-- C5 witness: the sample state with the Store failing insert_frame at tick
0; the hypotheses of the tick specification are discharged at this concrete
input and the error-backoff conclusion is read off. -/
theorem record_video_tick_spec_witness :
    sampleVideoState.queue = sampleFrame1 :: [sampleFrame2] ∧
    (record_video_tick (fun n _ => n != 0) (fun _ _ => true)
        sampleVideoState).slept_error = true := by
  refine ⟨rfl, ?_⟩
  exact ((record_video_tick_spec (fun n _ => n != 0) (fun _ _ => true)
    sampleVideoState sampleFrame1 [sampleFrame2] rfl).1 (by decide)).2.2.2

/-- AudioInput (from screenpipe-audio): the recorded chunk file and the
device it came from. -/
structure AudioInput where
  path : String
  device : String
deriving DecidableEq

/-- TranscriptionResult (from screenpipe-audio) as consumed by
process_audio_result in core.rs. -/
structure TranscriptionResult where
  input : AudioInput
  transcription : Option String
  error : Option String
deriving DecidableEq

/-- Store call made by process_audio_result, recorded so the theorems can
speak about which inserts were attempted. -/
inductive StoreCall where
  | insert_audio_chunk (path : String)
  | insert_audio_transcription (chunk_id : Nat) (text : String) (offset : Nat)
      (engine : String)
deriving DecidableEq

/-- Audio rows of the Store as touched by process_audio_result. -/
structure AudioDb where
  chunks : List (Nat × String)
  transcriptions : List (Nat × String × Nat × String)
  next_chunk_id : Nat
deriving DecidableEq

/-- process_audio_result from core.rs, parameterised by whether the Store
accepts insert_audio_chunk for a path (chunk_ok) and whether
insert_audio_transcription succeeds (trans_ok; its failure is only logged).
Returns the updated Store rows together with the list of insert calls made.
If the result carries an error or no transcription it is logged and dropped;
otherwise insert_audio_chunk runs, and on its success, if the transcription
string is non-empty, insert_audio_transcription runs with offset 0 and the
engine tag "Deepgram" when cloud_audio is set, "Whisper" otherwise. -/
def process_audio_result (chunk_ok : String → Bool) (trans_ok : Bool)
    (cloud_audio : Bool) (db : AudioDb) (result : TranscriptionResult) :
    AudioDb × List StoreCall :=
  if result.error.isSome || result.transcription.isNone then
    (db, [])
  else
    let transcription := result.transcription.getD ""
    let transcription_engine := if cloud_audio then "Deepgram" else "Whisper"
    if chunk_ok result.input.path then
      let audio_chunk_id := db.next_chunk_id
      let db1 : AudioDb :=
        { chunks := db.chunks ++ [(audio_chunk_id, result.input.path)],
          transcriptions := db.transcriptions,
          next_chunk_id := audio_chunk_id + 1 }
      if transcription.isEmpty then
        (db1, [StoreCall.insert_audio_chunk result.input.path])
      else if trans_ok then
        ({ db1 with transcriptions := db1.transcriptions
              ++ [(audio_chunk_id, transcription, 0, transcription_engine)] },
         [StoreCall.insert_audio_chunk result.input.path,
          StoreCall.insert_audio_transcription audio_chunk_id transcription 0
            transcription_engine])
      else
        (db1,
         [StoreCall.insert_audio_chunk result.input.path,
          StoreCall.insert_audio_transcription audio_chunk_id transcription 0
            transcription_engine])
    else
      (db, [StoreCall.insert_audio_chunk result.input.path])

/-- C6 counterexample: a result with no error and the non-empty transcription
"hi", against a Store whose insert_audio_chunk fails.  insert_audio_chunk is
called (and fails), and insert_audio_transcription is NOT called even though
the transcription string is non-empty — refuting "insert_audio_transcription
is called exactly when the transcription string is non-empty". -/
theorem audio_transcription_skipped_when_chunk_insert_fails :
    (process_audio_result (fun _ => false) true false
        { chunks := [], transcriptions := [], next_chunk_id := 0 }
        { input := { path := "a.mp4", device := "mic" },
          transcription := some "hi", error := none }).2
      = [StoreCall.insert_audio_chunk "a.mp4"] ∧
    ("hi" : String) ≠ "" ∧
    (process_audio_result (fun _ => false) true false
        { chunks := [], transcriptions := [], next_chunk_id := 0 }
        { input := { path := "a.mp4", device := "mic" },
          transcription := some "hi", error := none }).1.transcriptions
      = [] := by
  decide

/-- C6 amended: for every TranscriptionResult drained, if its error field is
set or its transcription is absent, nothing is inserted; otherwise
insert_audio_chunk(path) is called, and — provided the chunk insert succeeds —
insert_audio_transcription is called exactly when the transcription string is
non-empty; when the chunk insert fails the error is logged and no
transcription row is inserted. -/
theorem process_audio_result_spec (chunk_ok : String → Bool)
    (trans_ok cloud_audio : Bool) (db : AudioDb) (r : TranscriptionResult) :
    ((r.error.isSome || r.transcription.isNone) = true →
      process_audio_result chunk_ok trans_ok cloud_audio db r = (db, [])) ∧
    (∀ t, r.error = none → r.transcription = some t →
      StoreCall.insert_audio_chunk r.input.path
        ∈ (process_audio_result chunk_ok trans_ok cloud_audio db r).2 ∧
      (chunk_ok r.input.path = false →
        (process_audio_result chunk_ok trans_ok cloud_audio db r).1 = db ∧
        (process_audio_result chunk_ok trans_ok cloud_audio db r).2
          = [StoreCall.insert_audio_chunk r.input.path]) ∧
      (chunk_ok r.input.path = true →
        (StoreCall.insert_audio_transcription db.next_chunk_id t 0
            (if cloud_audio then "Deepgram" else "Whisper")
          ∈ (process_audio_result chunk_ok trans_ok cloud_audio db r).2 ↔
          t ≠ ""))) := by
  constructor
  · intro h
    simp [process_audio_result, h]
  · intro t herr htr
    have hcond : (r.error.isSome || r.transcription.isNone) = false := by
      simp [herr, htr]
    by_cases hok : chunk_ok r.input.path = true
    · refine ⟨?_, ?_, ?_⟩
      · by_cases hemp : t.isEmpty = true
        · simp [process_audio_result, hcond, herr, htr, hok, hemp]
        · cases trans_ok <;>
            simp [process_audio_result, hcond, herr, htr, hok, hemp]
      · intro habs
        rw [habs] at hok
        exact absurd hok (by decide)
      · intro _
        by_cases hts : t = ""
        · subst hts
          have he : ("" : String).isEmpty = true := by decide
          simp [process_audio_result, hcond, herr, htr, hok, he]
        · have hemp : t.isEmpty = false := by
            cases he : t.isEmpty
            · rfl
            · exact absurd ((String.isEmpty_iff t).mp he) hts
          cases trans_ok <;>
            simp [process_audio_result, hcond, herr, htr, hok, hemp, hts]
    · have hok2 : chunk_ok r.input.path = false := by
        cases hc : chunk_ok r.input.path
        · rfl
        · exact absurd hc hok
      refine ⟨?_, ?_, ?_⟩
      · simp [process_audio_result, hcond, herr, htr, hok2]
      · intro _
        constructor <;> simp [process_audio_result, hcond, herr, htr, hok2]
      · intro habs
        rw [habs] at hok2
        exact absurd hok2 (by decide)

/-- C6 witness: a concrete successful result with non-empty transcription
"hi" against a Store that accepts the chunk insert; the transcription insert
happens, as the amended specification requires. -/
theorem process_audio_result_spec_witness :
    StoreCall.insert_audio_chunk "a.mp4"
      ∈ (process_audio_result (fun _ => true) true false
          { chunks := [], transcriptions := [], next_chunk_id := 0 }
          { input := { path := "a.mp4", device := "mic" },
            transcription := some "hi", error := none }).2 ∧
    (StoreCall.insert_audio_transcription 0 "hi" 0 "Whisper"
      ∈ (process_audio_result (fun _ => true) true false
          { chunks := [], transcriptions := [], next_chunk_id := 0 }
          { input := { path := "a.mp4", device := "mic" },
            transcription := some "hi", error := none }).2 ↔
      ("hi" : String) ≠ "") := by
  have h := (process_audio_result_spec (fun _ => true) true false
    { chunks := [], transcriptions := [], next_chunk_id := 0 }
    { input := { path := "a.mp4", device := "mic" },
      transcription := some "hi", error := none }).2 "hi" rfl rfl
  exact ⟨h.1, h.2.2 rfl⟩

/-- ContentType from the screenpipe-server library crate root (not under
src/); the spec lists the three values OCR, Audio, All. -/
inductive ContentType where
  | OCR
  | Audio
  | All
deriving DecidableEq

/-- OCR search result row (fields as consumed by into_content_item in
server.rs). -/
structure OCRResult where
  frame_id : Int
  ocr_text : String
  timestamp : Int
  file_path : String
  offset_index : Int
  app_name : String
deriving DecidableEq

/-- Audio search result row (fields as consumed by into_content_item in
server.rs). -/
structure AudioResult where
  audio_chunk_id : Int
  transcription : String
  timestamp : Int
  file_path : String
  offset_index : Int
deriving DecidableEq

/-- SearchResult from the screenpipe-server library crate: the tagged union
returned by the Store. -/
inductive SearchResult where
  | OCR (c : OCRResult)
  | Audio (a : AudioResult)
deriving DecidableEq

/-- OCRContent from server.rs. -/
structure OCRContent where
  frame_id : Int
  text : String
  timestamp : Int
  file_path : String
  offset_index : Int
  app_name : String
deriving DecidableEq

/-- AudioContent from server.rs. -/
structure AudioContent where
  chunk_id : Int
  transcription : String
  timestamp : Int
  file_path : String
  offset_index : Int
deriving DecidableEq

/-- ContentItem from server.rs: the tagged union serialized to the client. -/
inductive ContentItem where
  | OCR (c : OCRContent)
  | Audio (c : AudioContent)
deriving DecidableEq

/-- into_content_item from server.rs. -/
def into_content_item : SearchResult → ContentItem
  | SearchResult.OCR ocr =>
      ContentItem.OCR
        { frame_id := ocr.frame_id, text := ocr.ocr_text,
          timestamp := ocr.timestamp, file_path := ocr.file_path,
          offset_index := ocr.offset_index, app_name := ocr.app_name }
  | SearchResult.Audio audio =>
      ContentItem.Audio
        { chunk_id := audio.audio_chunk_id,
          transcription := audio.transcription, timestamp := audio.timestamp,
          file_path := audio.file_path, offset_index := audio.offset_index }

/-- Text carried by a search result (OCR text or transcription). -/
def result_text : SearchResult → String
  | SearchResult.OCR c => c.ocr_text
  | SearchResult.Audio a => a.transcription

/-- Timestamp of a search result. -/
def result_timestamp : SearchResult → Int
  | SearchResult.OCR c => c.timestamp
  | SearchResult.Audio a => a.timestamp

/-- Row id of a search result, used only as the ordering tie-break. -/
def result_id : SearchResult → Int
  | SearchResult.OCR c => c.frame_id
  | SearchResult.Audio a => a.audio_chunk_id

/-- Modelled from the spec: content-type restriction of Store.search — All
keeps every row, OCR keeps OCR rows, Audio keeps Audio rows. -/
def matches_content_type (ct : ContentType) (r : SearchResult) : Bool :=
  match ct, r with
  | ContentType.All, _ => true
  | ContentType.OCR, SearchResult.OCR _ => true
  | ContentType.Audio, SearchResult.Audio _ => true
  | _, _ => false

/-- Modelled from the spec: the full-text tokenizer, split on spaces. -/
def tokenize (s : String) : List String :=
  s.splitOn " "

/-- Modelled from the spec: an empty query matches everything, otherwise all
query tokens must occur among the text's tokens. -/
def matches_query (q : String) (text : String) : Bool :=
  q.isEmpty || (tokenize q).all (fun t => (tokenize text).contains t)

/-- Modelled from the spec: half-open time bounds, either side optional. -/
def in_time_range (start_time end_time : Option Int) (ts : Int) : Bool :=
  (match start_time with
   | some a => decide (a ≤ ts)
   | none => true) &&
  (match end_time with
   | some b => decide (ts < b)
   | none => true)

/-- Modelled from the spec: when app_name is given, only OCR rows with that
app match (audio rows carry no app). -/
def matches_app (app : Option String) (r : SearchResult) : Bool :=
  match app, r with
  | none, _ => true
  | some a, SearchResult.OCR c => c.app_name == a
  | some _, SearchResult.Audio _ => false

/-- Modelled from the spec: output ordering of Store.search — r1 precedes r2
when its timestamp is larger, ties broken by larger id. -/
def result_before (r1 r2 : SearchResult) : Bool :=
  decide (result_timestamp r2 < result_timestamp r1) ||
    (decide (result_timestamp r2 = result_timestamp r1) &&
      decide (result_id r2 ≤ result_id r1))

/-- Insertion step of the ordering used by the modelled Store.search. -/
def insert_sorted (r : SearchResult) : List SearchResult → List SearchResult
  | [] => [r]
  | x :: xs => if result_before r x then r :: x :: xs else x :: insert_sorted r xs

/-- Insertion sort by descending timestamp then descending id. -/
def sort_results : List SearchResult → List SearchResult
  | [] => []
  | x :: xs => insert_sorted x (sort_results xs)

/-- Modelled from the spec: `DatabaseManager.search` — the Store's query
engine lives in the screenpipe-server library crate, which is not under src/;
following the spec it filters the rows by content type, tokenized query
match, half-open time bounds and app name, orders them by timestamp
descending with id as tie-break, and applies offset then limit. -/
def DatabaseManager.search (store : List SearchResult) (q : String)
    (ct : ContentType) (limit offset : Nat) (start_time end_time : Option Int)
    (app_name : Option String) : List SearchResult :=
  (((sort_results (store.filter (fun r =>
      matches_content_type ct r && matches_query q (result_text r) &&
        in_time_range start_time end_time (result_timestamp r) &&
        matches_app app_name r))).drop offset).take limit)

/-- Modelled from the spec: `DatabaseManager.count_search_results` — the
total number of matching rows, without limit or offset. -/
def DatabaseManager.count_search_results (store : List SearchResult)
    (q : String) (ct : ContentType) (start_time end_time : Option Int)
    (app_name : Option String) : Nat :=
  (store.filter (fun r =>
      matches_content_type ct r && matches_query q (result_text r) &&
        in_time_range start_time end_time (result_timestamp r) &&
        matches_app app_name r)).length

/-- SearchQuery from server.rs (q optional, limit defaulting to 20 and offset
to 0 are applied during deserialization, so they arrive here as plain
numbers). -/
structure SearchQuery where
  q : Option String
  limit : Nat
  offset : Nat
  content_type : ContentType
  start_time : Option Int
  end_time : Option Int
  app_name : Option String

/-- PaginationInfo from server.rs. -/
structure PaginationInfo where
  limit : Nat
  offset : Nat
  total : Int
deriving DecidableEq

/-- PaginatedResponse from server.rs, at ContentItem. -/
structure PaginatedResponse where
  data : List ContentItem
  pagination : PaginationInfo
deriving DecidableEq

/-- Content type actually sent to the Store by the search handler
(server.rs): OCR whenever app_name is present, the requested one otherwise. -/
def effective_content_type (query : SearchQuery) : ContentType :=
  if query.app_name.isSome then ContentType.OCR else query.content_type

/-- The search handler from server.rs, over a Store modelled as its list of
rows: forwards to DatabaseManager.search with the effective content type and
wraps the rows and the count into a PaginatedResponse. -/
def Server.search (store : List SearchResult) (query : SearchQuery) :
    PaginatedResponse :=
  let query_str := query.q.getD ""
  let content_type := effective_content_type query
  let results := DatabaseManager.search store query_str content_type
    query.limit query.offset query.start_time query.end_time query.app_name
  let total := DatabaseManager.count_search_results store query_str
    content_type query.start_time query.end_time query.app_name
  { data := results.map into_content_item,
    pagination := { limit := query.limit, offset := query.offset,
                    total := Int.ofNat total } }

/-- Audio-tagged discriminator of a ContentItem. -/
def is_audio_item : ContentItem → Bool
  | ContentItem.Audio _ => true
  | ContentItem.OCR _ => false

/-- Membership is preserved by the insertion step. -/
theorem mem_insert_sorted (r a : SearchResult) (l : List SearchResult) :
    a ∈ insert_sorted r l ↔ a = r ∨ a ∈ l := by
  induction l with
  | nil => simp [insert_sorted]
  | cons x xs ih =>
      simp only [insert_sorted]
      by_cases h : result_before r x = true
      · simp [h]
      · simp only [if_neg h, List.mem_cons, ih]
        tauto

/-- Sorting does not change membership. -/
theorem mem_sort_results (a : SearchResult) (l : List SearchResult) :
    a ∈ sort_results l ↔ a ∈ l := by
  induction l with
  | nil => simp [sort_results]
  | cons x xs ih =>
      simp only [sort_results, mem_insert_sorted, List.mem_cons, ih]

/-- C1: whenever app_name is present in a /search request, the handler
queries the Store with content_type = OCR regardless of the requested
content type, and consequently, for any Store contents, no Audio-tagged item
appears in the returned data. -/
theorem search_app_name_forces_ocr (store : List SearchResult)
    (query : SearchQuery) (h : query.app_name.isSome = true) :
    effective_content_type query = ContentType.OCR ∧
    ∀ item ∈ (Server.search store query).data, is_audio_item item = false := by
  have hct : effective_content_type query = ContentType.OCR := by
    simp [effective_content_type, h]
  refine ⟨hct, ?_⟩
  intro item hitem
  simp only [Server.search] at hitem
  obtain ⟨r, hr, rfl⟩ := List.mem_map.mp hitem
  have hr2 : r ∈ (sort_results (store.filter (fun r =>
      matches_content_type (effective_content_type query) r &&
        matches_query (query.q.getD "") (result_text r) &&
        in_time_range query.start_time query.end_time (result_timestamp r) &&
        matches_app query.app_name r))).drop query.offset :=
    List.take_subset _ _ hr
  have hr3 := List.drop_subset _ _ hr2
  have hr4 := (mem_sort_results _ _).mp hr3
  have hpred := (List.mem_filter.mp hr4).2
  rw [hct] at hpred
  cases r with
  | OCR c => rfl
  | Audio a =>
      exfalso
      simp [matches_content_type] at hpred

/-- C1 witness: a Store holding one Audio row and one OCR row, and a query
whose app_name is set while requesting content_type = All. -/
theorem search_app_name_forces_ocr_witness :
    effective_content_type
        { q := some "hello", limit := 20, offset := 0,
          content_type := ContentType.All, start_time := none,
          end_time := none, app_name := some "cursor" }
      = ContentType.OCR ∧
    ∀ item ∈ (Server.search
        [SearchResult.Audio
          { audio_chunk_id := 1, transcription := "hello", timestamp := 5,
            file_path := "a.mp4", offset_index := 0 },
         SearchResult.OCR
          { frame_id := 2, ocr_text := "hello", timestamp := 6,
            file_path := "v.mp4", offset_index := 0, app_name := "cursor" }]
        { q := some "hello", limit := 20, offset := 0,
          content_type := ContentType.All, start_time := none,
          end_time := none, app_name := some "cursor" }).data,
      is_audio_item item = false :=
  search_app_name_forces_ocr
    [SearchResult.Audio
      { audio_chunk_id := 1, transcription := "hello", timestamp := 5,
        file_path := "a.mp4", offset_index := 0 },
     SearchResult.OCR
      { frame_id := 2, ocr_text := "hello", timestamp := 6,
        file_path := "v.mp4", offset_index := 0, app_name := "cursor" }]
    { q := some "hello", limit := 20, offset := 0,
      content_type := ContentType.All, start_time := none, end_time := none,
      app_name := some "cursor" } rfl

end Screenpipe
